import Mathlib

/-!
Verification of the provider-switch and credential-validation workflow of the
chat application (src/js/controller.js `Controller.handleProviderChange` and
src/js/ai.js `GeminiService.validateKey`, `AiRouter`).

The JavaScript flow is embedded shallowly:

* `validateKey` embeds `GeminiService.validateKey` (ai.js lines 115-138) as a
  function of the in-memory api key, the proxy configuration, and an abstract
  fetch outcome (a numeric HTTP status or a thrown network/CORS error).
* `handleProviderChange` embeds the synchronous prefix of
  `Controller.handleProviderChange` (controller.js lines 59-154): everything up
  to and including the first `await svcG.validateKey()` runs without yielding,
  so it is modelled as one atomic step that returns the new state together with
  an optional `Pending` record — the suspended continuation of the async IIFE.
* `resumeValidate` embeds the continuation that runs when the first
  `validateKey` promise settles (controller.js lines 103-147); it may in turn
  suspend at the second `await svcG.validateKey()` (line 119), returning a
  `Pending2` record, whose continuation is `resumeRetry` (lines 120-134).

State components: `current` is `AiRouter.current` (the active provider id),
`geminiKey` is `services.gemini.apiKey`, `stored` is
`localStorage['ai_gemini_api_key']`, and `events` is the trace of UI
interactions (`view.alert`, `view.prompt`, `view.setProviderUI`) and issued
network requests, in program order.
-/

namespace LabAi

/-- Outcome of a `fetch` as seen by `GeminiService.validateKey`: either a
response carrying a numeric HTTP status, or the fetch call itself rejecting
(network failure / CORS block). -/
inductive FetchOutcome where
  | resp (status : Nat)
  | netError
deriving DecidableEq, Repr

/-- How a call to `GeminiService.validateKey` settles: the promise either
resolves with a boolean or rejects (the JS function throws). -/
inductive VOutcome where
  | ret (b : Bool)
  | threw
deriving DecidableEq, Repr

/-- The fetch API's `Response.ok`: status in the range [200, 300). -/
def statusOk (status : Nat) : Bool := decide (200 ≤ status) && decide (status < 300)

/-- The observable result of one run of `GeminiService.validateKey`: how the
promise settled, and whether a network request was issued at all. -/
structure VKRun where
  res : VOutcome
  fetched : Bool
deriving DecidableEq, Repr

/-- Embedding of `GeminiService.validateKey` (ai.js lines 115-138).

`if (!this.apiKey) return false;` — an empty key resolves `false` with no
request. In proxy mode (`config.LOCAL_PROXY` set) the code does
`if (!proxyRes.ok) return false; return true;`, and a throwing fetch is
re-thrown. In direct mode, `if (res.status === 401 || res.status === 403)
return false; return res.ok;`, and a throwing fetch is re-thrown. -/
def validateKey (apiKey : String) (useProxy : Bool) (net : FetchOutcome) : VKRun :=
  if apiKey = "" then { res := .ret false, fetched := false }
  else
    match useProxy, net with
    | true, .resp status => { res := .ret (statusOk status), fetched := true }
    | true, .netError => { res := .threw, fetched := true }
    | false, .resp status =>
        if status = 401 ∨ status = 403 then { res := .ret false, fetched := true }
        else { res := .ret (statusOk status), fetched := true }
    | false, .netError => { res := .threw, fetched := true }

/-- The distinct `view.alert` messages issued by `handleProviderChange`
(controller.js lines 67, 86, 89, 109, 133, 146). Messages that mention the
previous provider carry it as an argument. -/
inductive AlertMsg where
  | unknownProvider
  | enterKeyToContinue
  | noKeyEntered (prev : String)
  | rejectedEnterNew
  | rejectedReverted (prev : String)
  | networkCorsError
deriving DecidableEq, Repr

/-- One observable step of the workflow: an alert, a credential prompt
(`view.prompt('enter your gemini api key:')`), a provider-selector update
(`view.setProviderUI`), or an issued validation network request. -/
inductive Event where
  | alert (m : AlertMsg)
  | promptKey
  | setUI (p : String)
  | fetchIssued
deriving DecidableEq, Repr

/-- The mutable state the switch workflow touches: the active provider id
(`AiRouter.current`), the in-memory gemini key (`services.gemini.apiKey`),
the persisted key (`localStorage['ai_gemini_api_key']`), and the trace of
observable events so far. -/
structure AppState where
  current : String
  geminiKey : String
  stored : Option String
  events : List Event
deriving DecidableEq, Repr

/-- Append one observable event to the trace. -/
def emit (s : AppState) (e : Event) : AppState := { s with events := s.events ++ [e] }

/-- JavaScript `String.prototype.trim`: strip whitespace from both ends. -/
def jsTrim (s : String) : String :=
  .mk (((s.toList.dropWhile Char.isWhitespace).reverse.dropWhile Char.isWhitespace).reverse)

/-- The suspended continuation of the async IIFE at its first
`await svcG.validateKey()` (controller.js line 103). It closes over `prev`
(the provider active when the attempt began) and `key` (the candidate
credential), and carries how the awaited promise will settle. -/
structure Pending where
  prev : String
  key : String
  res : VOutcome
deriving DecidableEq, Repr

/-- The suspended continuation at the second `await svcG.validateKey()`
(controller.js line 119), reached only through the retry prompt. -/
structure Pending2 where
  prev : String
  newKey : String
  res2 : VOutcome
deriving DecidableEq, Repr

/-- Candidate-key lookup of controller.js lines 77-82: take the in-memory key
`svcG.apiKey` if non-empty, else `localStorage.getItem('ai_gemini_api_key')`
(copying a found stored key into the in-memory slot via `setGeminiKey`). -/
def acquireStored (s : AppState) : String × AppState :=
  if s.geminiKey = "" then
    let storeKey := s.stored.getD ""
    if storeKey = "" then ("", s)
    else (storeKey, { s with geminiKey := storeKey })
  else (s.geminiKey, s)

/-- Optimistic activation plus the start of validation (controller.js lines
97-103): set the router to gemini, update the selector UI, and call
`svcG.validateKey()`, which runs synchronously up to its own `fetch`. -/
def startValidation (s : AppState) (prev key : String) (useProxy : Bool)
    (net : FetchOutcome) : AppState × Option Pending :=
  let s1 := emit { s with current := "gemini" } (.setUI "gemini")
  let vk := validateKey key useProxy net
  let s2 := if vk.fetched then emit s1 .fetchIssued else s1
  (s2, some { prev := prev, key := key, res := vk.res })

/-- Embedding of the synchronous prefix of `Controller.handleProviderChange`
(controller.js lines 59-154): the registry check, candidate-key acquisition
(with a blocking `view.prompt` answered by `promptAnswer`, empty meaning
cancelled), the optimistic switch, and the issue of the first validation
call. Returns the state when control returns to the event loop, plus the
suspended continuation if a validation is in flight. -/
def handleProviderChange (services : List String) (s : AppState) (target : String)
    (promptAnswer : String) (useProxy : Bool) (net1 : FetchOutcome) :
    AppState × Option Pending :=
  let prev := s.current
  if services.contains target = false then
    (emit (emit s (.alert .unknownProvider)) (.setUI prev), none)
  else if target = "gemini" then
    let acq := acquireStored s
    if acq.1 = "" then
      let s1 := emit (emit acq.2 (.alert .enterKeyToContinue)) .promptKey
      if promptAnswer = "" then
        (emit (emit s1 (.alert (.noKeyEntered prev))) (.setUI prev), none)
      else
        let key := jsTrim promptAnswer
        startValidation { s1 with geminiKey := key } prev key useProxy net1
    else
      startValidation acq.2 prev acq.1 useProxy net1
  else
    (emit { s with current := target } (.setUI target), none)

/-- The catch block of the async IIFE (controller.js lines 140-147): remove
the persisted key, clear the in-memory key, revert the router and the
selector UI to `prev`, and alert the network/CORS error message. -/
def transportCatch (s : AppState) (prev : String) : AppState :=
  emit (emit { s with stored := none, geminiKey := "", current := prev } (.setUI prev))
    (.alert .networkCorsError)

/-- The revert tail of the rejection branch (controller.js lines 130-133):
router and selector back to `prev`, alert the rejected-and-reverted message. -/
def revertRejected (s : AppState) (prev : String) : AppState :=
  emit (emit { s with current := prev } (.setUI prev)) (.alert (.rejectedReverted prev))

/-- Embedding of the continuation after the first `await svcG.validateKey()`
settles (controller.js lines 103-147).

A thrown validation lands in the catch block. A `true` resolution persists
the captured `key` via `localStorage.setItem` — which, when persistence
fails (`putFails`), throws inside the same try and lands in the catch block
too. A `false` resolution clears stored and in-memory keys, alerts, prompts
once for a replacement (`retryAnswer`, empty meaning declined); a non-blank
replacement re-activates gemini and issues the second validation call
(suspending again), anything else reverts with the rejected message. -/
def resumeValidate (s : AppState) (p : Pending) (retryAnswer : String)
    (useProxy : Bool) (net2 : FetchOutcome) (putFails : Bool) :
    AppState × Option Pending2 :=
  match p.res with
  | .threw => (transportCatch s p.prev, none)
  | .ret true =>
      if putFails then (transportCatch s p.prev, none)
      else ({ s with stored := some p.key }, none)
  | .ret false =>
      let s1 := { s with stored := none, geminiKey := "" }
      let s2 := emit (emit s1 (.alert .rejectedEnterNew)) .promptKey
      if retryAnswer = "" then (revertRejected s2 p.prev, none)
      else
        let newKey := jsTrim retryAnswer
        if newKey = "" then (revertRejected s2 p.prev, none)
        else
          let s3 := emit { s2 with geminiKey := newKey, current := "gemini" } (.setUI "gemini")
          let vk := validateKey newKey useProxy net2
          let s4 := if vk.fetched then emit s3 .fetchIssued else s3
          (s4, some { prev := p.prev, newKey := newKey, res2 := vk.res })

/-- Embedding of the continuation after the second `await svcG.validateKey()`
settles (controller.js lines 119-134). A thrown retry validation is swallowed
by the inner `catch { ok2 = false; }`. Success persists the new key
(`localStorage.setItem`, again throwing into the outer catch when `putFails`);
failure clears both key slots and reverts with the rejected message. -/
def resumeRetry (s : AppState) (p2 : Pending2) (putFails : Bool) : AppState :=
  let ok2 := match p2.res2 with | .ret b => b | .threw => false
  if ok2 then
    if putFails then transportCatch s p2.prev
    else { s with stored := some p2.newKey }
  else
    revertRejected { s with stored := none, geminiKey := "" } p2.prev

/-- Run one switch attempt to completion with no interleaving: the
synchronous prefix, then each pending continuation as its awaited promise
settles. -/
def runAttempt (services : List String) (s : AppState) (target promptAnswer : String)
    (useProxy : Bool) (net1 : FetchOutcome) (retryAnswer : String) (net2 : FetchOutcome)
    (putFails : Bool) : AppState :=
  match handleProviderChange services s target promptAnswer useProxy net1 with
  | (s1, none) => s1
  | (s1, some p) =>
      match resumeValidate s1 p retryAnswer useProxy net2 putFails with
      | (s2, none) => s2
      | (s2, some p2) => resumeRetry s2 p2 putFails

/-- Embedding of the `AiRouter.provider` setter (ai.js lines 175-180): an
unregistered name throws, a registered one becomes `current`. -/
def routerSetProvider (services : List String) (name : String) : Except String String :=
  if services.contains name then .ok name else .error "unknown provider"

/-- The provider registry built in main.js: `{ eliza, gemini }`. -/
def servicesAll : List String := ["eliza", "gemini"]

/-- Fresh session: eliza active, no gemini key anywhere, empty trace. -/
def initState : AppState := { current := "eliza", geminiKey := "", stored := none, events := [] }

/-- Recognizer for the credential-prompt event. -/
def isPromptKey : Event → Bool
  | .promptKey => true
  | _ => false

/-- Recognizer for alert events. -/
def isAlert : Event → Bool
  | .alert _ => true
  | _ => false

/-- Number of credential prompts shown in a trace. -/
def promptShown (l : List Event) : Nat := (l.filter isPromptKey).length

/-- Scenario A (no cached key, prompt answered "ABC123", validation accepts):
the state at the suspension point, right after `handleProviderChange`
returns with the validation in flight. -/
def scenarioAStart : AppState × Option Pending :=
  handleProviderChange servicesAll initState "gemini" "ABC123" false (.resp 200)

/-- Scenario A run to completion. -/
def scenarioA : AppState :=
  runAttempt servicesAll initState "gemini" "ABC123" false (.resp 200) "" (.resp 200) false

/-- Session with eliza active and "OLD" cached in localStorage for gemini. -/
def cachedOldState : AppState :=
  { current := "eliza", geminiKey := "", stored := some "OLD", events := [] }

/-- Scenario B: cached "OLD" rejected (401), retry prompt answers "NEW",
"NEW" accepted (200). -/
def scenarioB : AppState :=
  runAttempt servicesAll cachedOldState "gemini" "" false (.resp 401) "NEW" (.resp 200) false

/-- Scenario C: cached "OLD" rejected (401), retry "NEW" rejected again (401). -/
def scenarioC : AppState :=
  runAttempt servicesAll cachedOldState "gemini" "" false (.resp 401) "NEW" (.resp 401) false

/-- Rejection followed by a declined retry prompt. -/
def scenarioDeclined : AppState :=
  runAttempt servicesAll cachedOldState "gemini" "" false (.resp 401) "" (.resp 200) false

/-- Cached "OLD" rejected (401), retry key "NEW" supplied, but the second
validation call fails with a network error. -/
def scenarioRetryTransport : AppState :=
  runAttempt servicesAll cachedOldState "gemini" "" false (.resp 401) "NEW" .netError false

/-- Scenario A except that persisting the accepted key throws (storage
quota/corruption): `putFails = true`. -/
def scenarioPutFail : AppState :=
  runAttempt servicesAll initState "gemini" "ABC123" false (.resp 200) "" (.resp 200) true

/-- Race: attempt 1 switches to gemini with key "K1" and suspends on a
validation call that will eventually fail with a network error. -/
def raceStart : AppState × Option Pending :=
  handleProviderChange servicesAll initState "gemini" "K1" false .netError

/-- While attempt 1 is still pending, attempt 2 requests gemini again; its
validation (of the same in-memory key "K1") resolves 200 first. -/
def raceSecond : AppState × Option Pending :=
  handleProviderChange servicesAll raceStart.1 "gemini" "" false (.resp 200)

/-- State once the newer attempt 2 has fully completed (key persisted,
gemini confirmed) — attempt 1's validation is still in flight. -/
def raceAfterSecond : AppState :=
  match raceSecond with
  | (s, some p) => (resumeValidate s p "" false (.resp 200) false).1
  | (s, none) => s

/-- Final state after attempt 1's stale validation result (a network error)
arrives and its continuation runs. -/
def raceFinal : AppState :=
  match raceStart.2 with
  | some p => (resumeValidate raceAfterSecond p "" false (.resp 200) false).1
  | none => raceAfterSecond

/-- C10: `validateKey` with an empty credential resolves `false` immediately
and issues no network request (ai.js line 116: `if (!this.apiKey) return
false;` precedes the fetch). -/
theorem C10_emptyKeyNoFetch (useProxy : Bool) (net : FetchOutcome) :
    validateKey "" useProxy net = { res := .ret false, fetched := false } := rfl

/-- C2 counterexample: the claim says every non-2xx status other than 401/403
makes `validateKey` fail with a TransportError, but a direct-mode HTTP 500
response resolves to `false` (a boolean), and so does a proxy-mode 502 relay
failure — neither throws. -/
theorem C2_counterexample :
    (validateKey "K" false (.resp 500)).res ≠ .threw ∧
    (validateKey "K" false (.resp 500)).res = .ret false ∧
    (validateKey "K" true (.resp 502)).res ≠ .threw ∧
    (validateKey "K" true (.resp 502)).res = .ret false := by
  decide

/-- C2 amended: for a non-empty key, direct mode maps 401/403 to `false` and
any other status to `res.ok` (so 2xx → `true` and every other status →
`false`, not a TransportError); proxy mode maps any status to `proxyRes.ok`;
only a throwing fetch (network/CORS failure) produces a TransportError. -/
theorem C2_classification (k : String) (hk : k ≠ "") (st : Nat) :
    (validateKey k false (.resp st)).res =
      (if st = 401 ∨ st = 403 then .ret false else .ret (statusOk st)) ∧
    (validateKey k true (.resp st)).res = .ret (statusOk st) ∧
    (validateKey k false .netError).res = .threw ∧
    (validateKey k true .netError).res = .threw := by
  refine ⟨?_, ?_, ?_, ?_⟩ <;> simp [validateKey, hk] <;> split <;> rfl

/-- C2 witness: the classification at key "K", status 500. -/
theorem C2_witness :
    (validateKey "K" false (.resp 500)).res =
      (if (500 : Nat) = 401 ∨ (500 : Nat) = 403 then VOutcome.ret false
        else .ret (statusOk 500)) ∧
    (validateKey "K" true (.resp 500)).res = .ret (statusOk 500) ∧
    (validateKey "K" false .netError).res = .threw ∧
    (validateKey "K" true .netError).res = .threw :=
  C2_classification "K" (by decide) 500

/-- C8: for a target id not in the registry, `handleProviderChange` leaves
every state component unchanged, creates no pending attempt, alerts the
unknown-provider failure and resets the selector to the current active id;
the `AiRouter.provider` setter likewise throws for such an id. -/
theorem C8_unknownProvider (services : List String) (s : AppState) (t ans : String)
    (useProxy : Bool) (net : FetchOutcome) (h : services.contains t = false) :
    handleProviderChange services s t ans useProxy net =
      ({ s with events := s.events ++ [.alert .unknownProvider, .setUI s.current] }, none) ∧
    routerSetProvider services t = .error "unknown provider" := by
  constructor
  · unfold handleProviderChange
    rw [h]
    simp [emit]
  · unfold routerSetProvider
    rw [h]
    simp

/-- C8 witness: switching to the unregistered id "claude" from the initial
state. -/
theorem C8_witness :
    handleProviderChange servicesAll initState "claude" "" false (.resp 200) =
      ({ initState with
          events := initState.events ++ [.alert .unknownProvider, .setUI initState.current] },
        none) ∧
    routerSetProvider servicesAll "claude" = .error "unknown provider" :=
  C8_unknownProvider servicesAll initState "claude" "" false (.resp 200) (by decide)

/-- C9: switching to gemini with no cached credential anywhere and a
cancelled/empty prompt terminates with the missing-credential message
("no key entered. staying on prev"): the active provider and both credential
slots are untouched throughout (the returned state differs from the input
only in its event trace), no validation request is issued (no `fetchIssued`
event, no pending attempt), and the UI is still notified of the no-op
transition (the staying-on-prev alert plus the selector reset to prev). -/
theorem C9_missingCredential (s : AppState) (useProxy : Bool) (net : FetchOutcome)
    (hmem : s.geminiKey = "") (hstore : s.stored = none) :
    handleProviderChange servicesAll s "gemini" "" useProxy net =
      ({ s with events := s.events ++
          [.alert .enterKeyToContinue, .promptKey,
            .alert (.noKeyEntered s.current), .setUI s.current] }, none) := by
  have hc : servicesAll.contains "gemini" = true := by decide
  unfold handleProviderChange
  rw [hc]
  simp [acquireStored, hmem, hstore, emit]

/-- C9 witness: the cancelled prompt from the initial state. -/
theorem C9_witness :
    handleProviderChange servicesAll initState "gemini" "" false (.resp 200) =
      ({ initState with events := initState.events ++
          [.alert .enterKeyToContinue, .promptKey,
            .alert (.noKeyEntered initState.current), .setUI initState.current] }, none) :=
  C9_missingCredential initState false (.resp 200) rfl rfl

/-- C6 counterexample: gemini is already the confirmed active provider with a
validated key cached in memory and storage, yet re-requesting gemini issues a
fresh validation network request (a `fetchIssued` event) and leaves the
attempt pending on it rather than resolving immediately, contradicting
"no network call ... resolves immediately". -/
theorem C6_counterexample :
    (handleProviderChange servicesAll
        { current := "gemini", geminiKey := "K", stored := some "K", events := [] }
        "gemini" "" false (.resp 200)).1.events = [.setUI "gemini", .fetchIssued] ∧
    (handleProviderChange servicesAll
        { current := "gemini", geminiKey := "K", stored := some "K", events := [] }
        "gemini" "" false (.resp 200)).2 ≠ none := by
  decide

/-- C6 amended: switching to the already-active eliza performs no prompt and
no network call and changes nothing but the selector-update event; but
re-selecting gemini (even when already active) with a non-empty in-memory key
performs no prompt yet does issue a validation network request and suspends
on it. -/
theorem C6_alreadyActive (s : AppState) (ans : String) (useProxy : Bool)
    (net : FetchOutcome) :
    (s.current = "eliza" →
      handleProviderChange servicesAll s "eliza" ans useProxy net =
        ({ s with events := s.events ++ [.setUI s.current] }, none)) ∧
    (s.geminiKey ≠ "" →
      handleProviderChange servicesAll s "gemini" ans useProxy net =
        ({ s with current := "gemini",
                  events := s.events ++ [.setUI "gemini", .fetchIssued] },
          some { prev := s.current, key := s.geminiKey,
                 res := (validateKey s.geminiKey useProxy net).res })) := by
  have hce : servicesAll.contains "eliza" = true := by decide
  have hcg : servicesAll.contains "gemini" = true := by decide
  constructor
  · intro h
    unfold handleProviderChange
    rw [hce]
    simp [emit, h]
  · intro h
    unfold handleProviderChange
    rw [hcg]
    have hf : (validateKey s.geminiKey useProxy net).fetched = true := by
      unfold validateKey
      rw [if_neg h]
      cases useProxy <;> cases net <;> simp <;> split <;> rfl
    simp [acquireStored, h, startValidation, emit, hf]

/-- C6 witness: both conjuncts at concrete states (eliza already active;
gemini already active with key "K"). -/
theorem C6_witness :
    handleProviderChange servicesAll initState "eliza" "" false (.resp 200) =
      ({ initState with events := initState.events ++ [.setUI initState.current] }, none) ∧
    handleProviderChange servicesAll
        { current := "gemini", geminiKey := "K", stored := some "K", events := [] }
        "gemini" "" false (.resp 200) =
      ({ current := "gemini", geminiKey := "K", stored := some "K",
         events := [.setUI "gemini", .fetchIssued] },
        some { prev := "gemini", key := "K",
               res := (validateKey "K" false (.resp 200)).res }) :=
  ⟨(C6_alreadyActive initState "" false (.resp 200)).1 rfl,
    (C6_alreadyActive { current := "gemini", geminiKey := "K", stored := some "K", events := [] }
        "" false (.resp 200)).2 (by decide)⟩

/-- C3 counterexample: in Scenario A the terminal state is reached with the
right provider and cached credential, but no `confirmed` notification is
delivered: the continuation that runs when validation resolves appends no
event at all (the final trace equals the trace at the suspension point), so
the only alert of the whole attempt is the pre-switch key-entry message and
the only selector update is the optimistic one issued before validation. -/
theorem C3_counterexample :
    scenarioA.current = "gemini" ∧ scenarioA.stored = some "ABC123" ∧
    scenarioA.events = scenarioAStart.1.events ∧
    scenarioA.events.filter isAlert = [.alert .enterKeyToContinue] ∧
    scenarioA.events.filter isPromptKey = [.promptKey] := by
  decide

/-- C3 amended: Scenario A ends with gemini active and "ABC123" cached for it,
but the success path is silent — the complete trace is the key-entry alert,
the prompt, the optimistic selector update and the validation request, with
no terminal confirmation notification after validation resolves. -/
theorem C3_scenarioA :
    scenarioA = { current := "gemini", geminiKey := "ABC123", stored := some "ABC123",
                  events := [.alert .enterKeyToContinue, .promptKey,
                             .setUI "gemini", .fetchIssued] } := by
  decide

/-- C4 counterexample: when the *retry* validation call fails with a
transport error, the inner `catch { ok2 = false; }` swallows it, so the
attempt ends with the "api key rejected. reverted" alert — the trace contains
no network/CORS-error alert at all — contradicting "whenever the validate
call fails with a TransportError (at any point in the attempt, including
during a retry) ... notifies reverted with reason TransportError". -/
theorem C4_counterexample :
    scenarioRetryTransport.current = "eliza" ∧
    Event.alert .networkCorsError ∉ scenarioRetryTransport.events ∧
    scenarioRetryTransport.events.getLast? = some (.alert (.rejectedReverted "eliza")) ∧
    scenarioRetryTransport.stored = none ∧ scenarioRetryTransport.geminiKey = "" := by
  decide

/-- C4 amended: a TransportError on the *first* validation call clears the
persisted and in-memory keys, reverts the active provider to the attempt's
previous one, alerts the network/CORS-error message, shows no retry prompt
and terminates; but a TransportError during the *retry* validation is
swallowed and handled exactly like a second rejection — same clear and
revert, but the alert names the rejected-key reason, not the transport one. -/
theorem C4_transportError (s : AppState) (p : Pending) (r : String)
    (useProxy putFails : Bool) (net2 : FetchOutcome) (p2 : Pending2)
    (h1 : p.res = .threw) (h2 : p2.res2 = .threw) :
    resumeValidate s p r useProxy net2 putFails =
      ({ s with stored := none, geminiKey := "", current := p.prev,
                events := s.events ++ [.setUI p.prev, .alert .networkCorsError] }, none) ∧
    resumeRetry s p2 putFails =
      { s with stored := none, geminiKey := "", current := p2.prev,
               events := s.events ++ [.setUI p2.prev, .alert (.rejectedReverted p2.prev)] } := by
  constructor
  · simp [resumeValidate, h1, transportCatch, emit]
  · simp [resumeRetry, h2, revertRejected, emit]

/-- C4 witness: both conjuncts at a concrete pending attempt whose validation
threw. -/
theorem C4_witness :
    resumeValidate { current := "gemini", geminiKey := "K", stored := some "K", events := [] }
        { prev := "eliza", key := "K", res := .threw } "" false (.resp 200) false =
      ({ current := "eliza", geminiKey := "", stored := none,
         events := [.setUI "eliza", .alert .networkCorsError] }, none) ∧
    resumeRetry { current := "gemini", geminiKey := "K", stored := some "K", events := [] }
        { prev := "eliza", newKey := "K", res2 := .threw } false =
      { current := "eliza", geminiKey := "", stored := none,
        events := [.setUI "eliza", .alert (.rejectedReverted "eliza")] } :=
  C4_transportError { current := "gemini", geminiKey := "K", stored := some "K", events := [] }
    { prev := "eliza", key := "K", res := .threw } "" false false (.resp 200)
    { prev := "eliza", newKey := "K", res2 := .threw } rfl rfl

/-- C7 counterexample: in Scenario A with a failing `localStorage.setItem`
(quota/corruption), the throw escapes into the async IIFE's catch block: the
switch is reverted to the previous provider, the in-memory key is wiped, and
the user sees the network/CORS-error alert — the persistence failure both
changes the switch outcome and is surfaced as a user-facing error, and no
in-memory credential survives for the session. -/
theorem C7_counterexample :
    scenarioPutFail.current = "eliza" ∧ scenarioPutFail.stored = none ∧
    scenarioPutFail.geminiKey = "" ∧
    scenarioPutFail.events.getLast? = some (.alert .networkCorsError) := by
  decide

/-- C7 amended: `localStorage.setItem` on the success path is inside the same
try as the validation call, so a persistence failure is caught by the
transport-error handler: keys cleared, provider reverted to previous, and the
network/CORS-error alert shown; only when the put succeeds does the attempt
stay on gemini with the key persisted. -/
theorem C7_putFailure (s : AppState) (p : Pending) (r : String) (useProxy : Bool)
    (net2 : FetchOutcome) (h : p.res = .ret true) :
    resumeValidate s p r useProxy net2 true =
      ({ s with stored := none, geminiKey := "", current := p.prev,
                events := s.events ++ [.setUI p.prev, .alert .networkCorsError] }, none) ∧
    resumeValidate s p r useProxy net2 false = ({ s with stored := some p.key }, none) := by
  constructor
  · simp [resumeValidate, h, transportCatch, emit]
  · simp [resumeValidate, h]

/-- C7 witness: the two put outcomes at a concrete accepted validation. -/
theorem C7_witness :
    resumeValidate { current := "gemini", geminiKey := "K", stored := none, events := [] }
        { prev := "eliza", key := "K", res := .ret true } "" false (.resp 200) true =
      ({ current := "eliza", geminiKey := "", stored := none,
         events := [.setUI "eliza", .alert .networkCorsError] }, none) ∧
    resumeValidate { current := "gemini", geminiKey := "K", stored := none, events := [] }
        { prev := "eliza", key := "K", res := .ret true } "" false (.resp 200) false =
      ({ current := "gemini", geminiKey := "K", stored := some "K", events := [] }, none) :=
  C7_putFailure { current := "gemini", geminiKey := "K", stored := none, events := [] }
    { prev := "eliza", key := "K", res := .ret true } "" false (.resp 200) rfl

/-- C5: the retry policy on credential rejection. Scenario B (cached "OLD"
rejected, retry "NEW" accepted) ends on gemini with "NEW" cached; Scenario C
(rejected twice) and a declined retry prompt both end with the credential
cleared from storage and memory, the previous provider restored, and the
rejected-key alert as the terminal notification; each run shows the retry
prompt exactly once. In general, the continuation after the first validation
shows the prompt exactly once when and only when the result was a rejection,
and the continuation after the retry validation never prompts again. -/
theorem C5_retryPolicy :
    scenarioB = { current := "gemini", geminiKey := "NEW", stored := some "NEW",
                  events := [.setUI "gemini", .fetchIssued, .alert .rejectedEnterNew,
                             .promptKey, .setUI "gemini", .fetchIssued] } ∧
    scenarioC = { current := "eliza", geminiKey := "", stored := none,
                  events := [.setUI "gemini", .fetchIssued, .alert .rejectedEnterNew,
                             .promptKey, .setUI "gemini", .fetchIssued, .setUI "eliza",
                             .alert (.rejectedReverted "eliza")] } ∧
    scenarioDeclined = { current := "eliza", geminiKey := "", stored := none,
                         events := [.setUI "gemini", .fetchIssued, .alert .rejectedEnterNew,
                                    .promptKey, .setUI "eliza",
                                    .alert (.rejectedReverted "eliza")] } ∧
    promptShown scenarioB.events = 1 ∧ promptShown scenarioC.events = 1 ∧
    promptShown scenarioDeclined.events = 1 ∧
    (∀ (s : AppState) (p : Pending) (r : String) (useProxy : Bool)
        (net2 : FetchOutcome) (putFails : Bool),
      promptShown (resumeValidate s p r useProxy net2 putFails).1.events =
        promptShown s.events + (if p.res = .ret false then 1 else 0)) ∧
    (∀ (s : AppState) (p2 : Pending2) (putFails : Bool),
      promptShown (resumeRetry s p2 putFails).events = promptShown s.events) := by
  refine ⟨by decide, by decide, by decide, by decide, by decide, by decide, ?_, ?_⟩
  · intro s p r useProxy net2 putFails
    rcases p with ⟨pv, k, res⟩
    cases res with
    | threw =>
        simp [resumeValidate, transportCatch, emit, promptShown, isPromptKey,
          List.filter_append]
    | ret b =>
        cases b
        · by_cases hr : r = ""
          · simp [resumeValidate, hr, revertRejected, emit, promptShown, isPromptKey,
              List.filter_append]
          · by_cases hn : jsTrim r = ""
            · simp [resumeValidate, hr, hn, revertRejected, emit, promptShown, isPromptKey,
                List.filter_append]
            · simp only [resumeValidate, hr, hn, if_false, if_neg]
              split <;>
                simp [emit, promptShown, isPromptKey, List.filter_append]
        · cases putFails <;>
            simp [resumeValidate, transportCatch, emit, promptShown, isPromptKey,
              List.filter_append]
  · intro s p2 putFails
    rcases p2 with ⟨pv, nk, r2⟩
    cases r2 with
    | threw =>
        simp [resumeRetry, revertRejected, emit, promptShown, isPromptKey, List.filter_append]
    | ret b =>
        cases b
        · simp [resumeRetry, revertRejected, emit, promptShown, isPromptKey,
            List.filter_append]
        · cases putFails <;>
            simp [resumeRetry, transportCatch, emit, promptShown, isPromptKey,
              List.filter_append]

/-- C1 counterexample: attempt 1 (switch to gemini, key "K1") suspends on a
validation that will fail with a network error; attempt 2 then requests
gemini, its validation resolves first, and it completes with gemini active
and "K1" persisted. When attempt 1's stale result finally arrives, its
continuation still runs: it clears the persisted credential, reverts the
active provider to its own captured previous provider "eliza" — away from
what the newer attempt established — and emits two further UI events,
contradicting "mutates neither ActiveProviderState nor CachedCredential and
emits no UI notification". -/
theorem C1_counterexample :
    raceAfterSecond.current = "gemini" ∧ raceAfterSecond.stored = some "K1" ∧
    raceFinal.current = "eliza" ∧ raceFinal.stored = none ∧
    raceFinal.events =
      raceAfterSecond.events ++ [.setUI "eliza", .alert .networkCorsError] := by
  decide

/-- C1 amended: there is no epoch/staleness guard — the continuation of a
pending validation applies its captured outcome to whatever state holds when
it resolves, regardless of any newer attempt: a thrown validation clears both
credential slots, reverts the active provider to the attempt's own previous
provider and alerts; an accepted validation persists the attempt's captured
key. Only the relative resolution order of the attempts determines the final
state. -/
theorem C1_noStaleGuard (s : AppState) (p : Pending) (r : String)
    (useProxy putFails : Bool) (net2 : FetchOutcome) :
    (p.res = .threw →
      (resumeValidate s p r useProxy net2 putFails).1 =
        { s with stored := none, geminiKey := "", current := p.prev,
                 events := s.events ++ [.setUI p.prev, .alert .networkCorsError] }) ∧
    (p.res = .ret true → putFails = false →
      (resumeValidate s p r useProxy net2 putFails).1 = { s with stored := some p.key }) := by
  constructor
  · intro h
    simp [resumeValidate, h, transportCatch, emit]
  · intro h hp
    simp [resumeValidate, h, hp]

/-- C1 witness: the stale continuation applied to the state the newer attempt
left behind — exactly the final state of the race counterexample. -/
theorem C1_witness :
    (resumeValidate raceAfterSecond { prev := "eliza", key := "K1", res := .threw }
        "" false (.resp 200) false).1 =
      { raceAfterSecond with
          stored := none, geminiKey := "", current := "eliza",
          events := raceAfterSecond.events ++ [.setUI "eliza", .alert .networkCorsError] } :=
  (C1_noStaleGuard raceAfterSecond { prev := "eliza", key := "K1", res := .threw }
    "" false false (.resp 200)).1 rfl

end LabAi
